import Mathlib

/-!
Shallow embedding of the kollaflyget client-side flight-statistics core:
status classification (`calculateStatusCounts`), the country-aware query
filter (`filterFlightsByQuery`), top-N frequency lists (`getTopItems`),
route aggregation with popularity tiering (`FlightMap` / route map), and
the 7-date-capped range enumeration with range metadata.

JavaScript strings are modelled as Lean `String`s; `toLowerCase`/`includes`
are embedded as explicit character-list functions.  JavaScript numbers that
carry fractional values (popularity, delay rate, minute differences) are
modelled as `ℚ`; integer counters as `ℕ`.  ISO-8601 UTC timestamps are
modelled by their epoch value in milliseconds (with a constant affine
offset, which is irrelevant for differences and comparisons).
-/

/-- Embedding of `String.prototype.toLowerCase` for the characters that occur
in this code base: ASCII letters plus the Swedish/German uppercase letters
appearing in status texts and country data. -/
def jsCharToLower (c : Char) : Char :=
  if 'A' ≤ c ∧ c ≤ 'Z' then Char.ofNat (c.toNat + 32)
  else if c = 'Å' then 'å'
  else if c = 'Ä' then 'ä'
  else if c = 'Ö' then 'ö'
  else if c = 'Ü' then 'ü'
  else if c = 'É' then 'é'
  else c

/-- Lowercase a string to its character list (embedding `s.toLowerCase()`). -/
def lowerStr (s : String) : List Char :=
  s.toList.map jsCharToLower

/-- Does `hay` start with `needle`?  Helper for `jsIncludes`. -/
def startsWithList : List Char → List Char → Bool
  | [], _ => true
  | _ :: _, [] => false
  | a :: as, b :: bs => a = b && startsWithList as bs

/-- Embedding of `String.prototype.includes`: `jsIncludes hay needle` is true
iff `needle` occurs as a contiguous substring of `hay`. -/
def jsIncludes : List Char → List Char → Bool
  | [], needle => needle.isEmpty
  | c :: t, needle => startsWithList needle (c :: t) || jsIncludes t needle

/-- `a.toLowerCase().includes(b.toLowerCase())` on strings. -/
def strIncl (hay needle : String) : Bool :=
  jsIncludes (lowerStr hay) (lowerStr needle)

/-- Flight leg direction (`type` field of a flight record). -/
inductive FlightType where
  | Arrival
  | Departure
  deriving DecidableEq, Repr

/-- Canonical flight record produced by `transformFlight` in the Swedavia
service.  Optional provider fields are `Option`s (JS `undefined` ⇒ `none`);
the three UTC timestamps are epoch milliseconds. -/
structure Flight where
  id : String
  airline : String
  destination : String
  originIata : Option String := none
  destinationIata : Option String := none
  time : String := "--:--"
  status : String
  gate : String := "-"
  terminal : Option String := none
  type : FlightType := FlightType.Departure
  scheduledUtc : Option ℚ := none
  actualUtc : Option ℚ := none
  estimatedUtc : Option ℚ := none
  deriving DecidableEq, Repr

/-- `COUNTRY_MAPPING` from the Swedavia API service: country display name to
airport codes and city-name aliases. -/
def COUNTRY_MAPPING : List (String × List String) :=
  [ ("Spanien", ["MAD", "BAR", "ALC", "AGP", "PMI", "LPA", "TFS", "Alicante",
      "Malaga", "Barcelona", "Madrid", "Palma", "Gran Canaria", "Teneriffa"]),
    ("Tyskland", ["FRA", "MUC", "BER", "HAM", "DUS", "Frankfurt", "München",
      "Berlin", "Hamburg", "Düsseldorf"]),
    ("Storbritannien", ["LHR", "LGW", "STN", "MAN", "London", "Manchester"]),
    ("Frankrike", ["CDG", "ORY", "NCE", "Paris", "Nice"]),
    ("Italien", ["FCO", "MXP", "VCE", "Rom", "Milano", "Venedig"]),
    ("Norge", ["OSL", "BGO", "TRD", "Oslo", "Bergen", "Trondheim"]),
    ("Danmark", ["CPH", "BLL", "Köpenhamn", "Billund"]),
    ("Finland", ["HEL", "Helsingfors"]),
    ("USA", ["JFK", "EWR", "ORD", "LAX", "New York", "Chicago", "Los Angeles"]),
    ("Thailand", ["BKK", "HKT", "Bangkok", "Phuket"]),
    ("Grekland", ["ATH", "CHQ", "RHO", "Aten", "Chania", "Rhodos"]) ]

/-- `filterFlightsByQuery` (AirportStatistics.jsx): empty query returns the
input; otherwise keep flights whose id, destination or airline contains the
lowercased query, or whose destination contains an alias of a country whose
name contains the query. -/
def filterFlightsByQuery (flights : List Flight) (query : String) : List Flight :=
  if query = "" then flights
  else
    let q := lowerStr query
    let countryMatches :=
      (COUNTRY_MAPPING.filter (fun p => jsIncludes (lowerStr p.1) q)).flatMap
        (fun p => p.2.map lowerStr)
    flights.filter (fun f =>
      jsIncludes (lowerStr f.id) q ||
      jsIncludes (lowerStr f.destination) q ||
      jsIncludes (lowerStr f.airline) q ||
      countryMatches.any (fun k => jsIncludes (lowerStr f.destination) k))

/-- The four status classes of the statistics dashboard. -/
inductive StatusClass where
  | landed
  | delayed
  | cancelled
  | onTime
  deriving DecidableEq, Repr

/-- Delay detection from `calculateStatusCounts` (AirportStatistics.jsx,
UTC-aware version): textual delay marker, or — when a scheduled and an
actual-or-estimated timestamp are both present — the actual/estimated time is
at least 15 minutes after the scheduled time. -/
def isDelayedFlight (f : Flight) : Bool :=
  let s := lowerStr f.status
  let textDelayed := jsIncludes s (lowerStr "delayed") || jsIncludes s (lowerStr "försenat")
  if textDelayed then true
  else
    match f.scheduledUtc, (f.actualUtc).or f.estimatedUtc with
    | some scheduled, some actual =>
        decide ((actual - scheduled) / (1000 * 60) ≥ 15)
    | _, _ => false

/-- Branch structure of the `calculateStatusCounts` reducer: landed marker
first, then the delay decision, then cancelled markers, otherwise on time. -/
def classifyFlight (f : Flight) : StatusClass :=
  let s := lowerStr f.status
  if jsIncludes s (lowerStr "landat") then StatusClass.landed
  else if isDelayedFlight f then StatusClass.delayed
  else if jsIncludes s (lowerStr "cancelled") || jsIncludes s (lowerStr "inställt") then
    StatusClass.cancelled
  else StatusClass.onTime

/-- Accumulator of `calculateStatusCounts`. -/
structure StatusCounts where
  landed : ℕ
  delayed : ℕ
  cancelled : ℕ
  onTime : ℕ
  deriving DecidableEq, Repr

/-- One reducer step of `calculateStatusCounts`. -/
def bumpStatus (acc : StatusCounts) (f : Flight) : StatusCounts :=
  match classifyFlight f with
  | StatusClass.landed => { acc with landed := acc.landed + 1 }
  | StatusClass.delayed => { acc with delayed := acc.delayed + 1 }
  | StatusClass.cancelled => { acc with cancelled := acc.cancelled + 1 }
  | StatusClass.onTime => { acc with onTime := acc.onTime + 1 }

/-- `calculateStatusCounts` (AirportStatistics.jsx): reduce the flight list
into the four status counters. -/
def calculateStatusCounts (flights : List Flight) : StatusCounts :=
  flights.foldl bumpStatus ⟨0, 0, 0, 0⟩

/-- One reducer step of the frequency count in `getTopItems` and the route
aggregations: a JS object maps each key to its count; object keys are unique
and keep insertion order, so the object is an association list where a fresh
key is appended and an existing key's entry is incremented in place. -/
def bumpCount (acc : List (String × ℕ)) (k : String) : List (String × ℕ) :=
  if acc.any (fun p => p.1 = k) then
    acc.map (fun p => if p.1 = k then (p.1, p.2 + 1) else p)
  else acc ++ [(k, 1)]

/-- Frequency count of a key stream, in first-encountered key order
(`items.reduce((acc, item) => {acc[v] = (acc[v] || 0) + 1; ...}, \x7b\x7d)`
followed by `Object.entries`). -/
def countsFold (keys : List String) : List (String × ℕ) :=
  keys.foldl bumpCount []

/-- Keys of a stream in first-encountered order, each once (specification-side
description of the JS object's key order). -/
def uniqKeys (keys : List String) : List String :=
  keys.foldl (fun acc v => if v ∈ acc then acc else acc ++ [v]) []

/-- Specification-side formulation of the frequency count: the distinct keys
in first-encountered order, each paired with its number of occurrences. -/
def countsSpec (keys : List String) : List (String × ℕ) :=
  (uniqKeys keys).map (fun k => (k, keys.count k))

/-- Insert an entry into a list sorted by descending count, after every
existing entry of greater or equal count (so a run of insertions is a stable
descending sort, as `Array.prototype.sort` with comparator `b[1] - a[1]`
must produce per the ECMAScript stable-sort requirement). -/
def insDesc (x : String × ℕ) : List (String × ℕ) → List (String × ℕ)
  | [] => [x]
  | y :: ys => if y.2 < x.2 then x :: y :: ys else y :: insDesc x ys

/-- Stable sort by descending count. -/
def sortByCountDesc (l : List (String × ℕ)) : List (String × ℕ) :=
  l.foldl (fun acc x => insDesc x acc) []

/-- `getTopItems` (AirportStatistics.jsx): frequency count over the chosen
key, sorted descending by count (stable), truncated to `limit` (default 5). -/
def getTopItems {α : Type} (items : List α) (key : α → String) (limit : ℕ := 5) :
    List (String × ℕ) :=
  (sortByCountDesc (countsFold (items.map key))).take limit

/-- `DESTINATION_COORDS` from the Swedavia API service: IATA code to
latitude/longitude. -/
def DESTINATION_COORDS : List (String × ℚ × ℚ) :=
  [ ("ARN", 599519/10000, 179186/10000), ("GOT", 576688/10000, 122797/10000),
    ("BMA", 593544/10000, 179417/10000), ("MMX", 555302/10000, 133724/10000),
    ("LLA", 655437/10000, 221264/10000), ("UME", 637930/10000, 202829/10000),
    ("OSR", 631932/10000, 145007/10000), ("VBY", 576628/10000, 183461/10000),
    ("RNB", 562667/10000, 152650/10000), ("KRN", 678222/10000, 203367/10000),
    ("SDL", 624831/10000, 174378/10000), ("VXO", 569286/10000, 147269/10000),
    ("NRK", 585913/10000, 162417/10000), ("KSD", 594444/10000, 133375/10000),
    ("HEL", 603172/10000, 249633/10000), ("CPH", 556180/10000, 126508/10000),
    ("OSL", 601975/10000, 111004/10000), ("FRA", 500379/10000, 85622/10000),
    ("MUC", 483537/10000, 117861/10000), ("BER", 523667/10000, 135033/10000),
    ("LHR", 514700/10000, -4543/10000), ("LGW", 511481/10000, -1903/10000),
    ("AMS", 523086/10000, 47639/10000), ("CDG", 490097/10000, 25479/10000),
    ("MAD", 404839/10000, -35680/10000), ("BCN", 412974/10000, 20833/10000),
    ("AGP", 366749/10000, -44991/10000), ("PMI", 395495/10000, 27388/10000),
    ("ALC", 382822/10000, -5582/10000), ("FCO", 418003/10000, 122389/10000),
    ("MXP", 456300/10000, 87231/10000), ("VCE", 455053/10000, 123519/10000),
    ("ATH", 379364/10000, 239445/10000), ("ZRH", 474582/10000, 85555/10000),
    ("VIE", 481103/10000, 165697/10000), ("BRU", 509014/10000, 44844/10000),
    ("IST", 412753/10000, 287519/10000), ("DXB", 252532/10000, 553657/10000),
    ("DOH", 252731/10000, 516081/10000), ("BKK", 136900/10000, 1007501/10000),
    ("JFK", 406413/10000, -737781/10000), ("EWR", 406895/10000, -741745/10000),
    ("ORD", 419742/10000, -879073/10000), ("LAX", 339416/10000, -1184085/10000) ]

/-- Is a code present in the coordinate table (`DESTINATION_COORDS[dest]`
truthiness check)? -/
def coordsHas (code : String) : Bool :=
  DESTINATION_COORDS.any (fun p => p.1 = code)

/-- Coordinate lookup (spread `...DESTINATION_COORDS[iata]`); `(0, 0)` is
never reached by the aggregation because only codes passing `coordsHas` are
counted. -/
def coordsGet (code : String) : ℚ × ℚ :=
  match DESTINATION_COORDS.find? (fun p => p.1 = code) with
  | some p => p.2
  | none => (0, 0)

/-- Far-end code of a flight relative to the queried airport: the
`f.type === 'Arrival' ? f.originIata : f.destinationIata` branch used by the
route aggregations. -/
def farEnd (f : Flight) : Option String :=
  match f.type with
  | FlightType.Arrival => f.originIata
  | FlightType.Departure => f.destinationIata

/-- The key stream the destinations aggregation actually counts: far-end
codes that are present, differ from the queried airport and have known
coordinates (`dest && dest !== airportIata && DESTINATION_COORDS[dest]`). -/
def relevantKeys (flights : List Flight) (airportIata : String) : List String :=
  flights.filterMap (fun f =>
    match farEnd f with
    | some d => if d ≠ airportIata ∧ coordsHas d then some d else none
    | none => none)

/-- Per-far-end counts of the destinations aggregation (AirportStatistics.jsx,
`FlightMap` props): reduce over the filtered flights bumping the object entry
of each relevant far-end code. -/
def destCounts (flights : List Flight) (airportIata : String) : List (String × ℕ) :=
  flights.foldl (fun acc f =>
    match farEnd f with
    | some d => if d ≠ airportIata ∧ coordsHas d then bumpCount acc d else acc
    | none => acc) []

/-- `Math.max(...Object.values(counts), 1)`: the maximum count, at least 1. -/
def maxCountOr1 (counts : List (String × ℕ)) : ℕ :=
  (counts.map (fun p => p.2)).foldr max 1

/-- One destination entry handed to `FlightMap`. -/
structure DestAgg where
  iata : String
  count : ℕ
  lat : ℚ
  lng : ℚ
  popularity : ℚ
  deriving DecidableEq, Repr

/-- The `destinations` prop computed for `FlightMap`: each counted far-end
code with its coordinates and `popularity = count / max`. -/
def destinationsFor (flights : List Flight) (airportIata : String) : List DestAgg :=
  let counts := destCounts flights airportIata
  let mx := maxCountOr1 counts
  counts.map (fun p =>
    { iata := p.1, count := p.2, lat := (coordsGet p.1).1, lng := (coordsGet p.1).2,
      popularity := (p.2 : ℚ) / (mx : ℚ) })

/-- The three popularity tiers of the route map styling. -/
inductive Tier where
  | popular
  | medium
  | rare
  deriving DecidableEq, Repr

/-- Tier selection (`FlightMap.jsx` route colors, same rule as the `RouteMap`
color/label chain): `popularity > 0.7` ⇒ popular, else `popularity > 0.3` ⇒
medium, else rare. -/
def tierOf (popularity : ℚ) : Tier :=
  if popularity > 7/10 then Tier.popular
  else if popularity > 3/10 then Tier.medium
  else Tier.rare

/-- Embedding of `(x).toFixed(1)` for the nonnegative delay rate: round to
one decimal place, half away from zero. -/
def jsToFixed1 (q : ℚ) : ℚ :=
  (⌊q * 10 + 1/2⌋ : ℚ) / 10

/-- The statistics snapshot built by the `stats` memo. -/
structure Snapshot where
  total : ℕ
  statusCounts : StatusCounts
  delayRate : ℚ
  topDestinations : List (String × ℕ)
  topAirlines : List (String × ℕ)
  deriving DecidableEq, Repr

/-- The `stats` memo (AirportStatistics.jsx): `null` for an empty filtered
list, otherwise the snapshot with `delayRate = (delayed / total * 100)`
rounded to one decimal place by `toFixed(1)`. -/
def statsOf (filteredFlights : List Flight) : Option Snapshot :=
  if filteredFlights.length = 0 then none
  else
    let statusCounts := calculateStatusCounts filteredFlights
    some
      { total := filteredFlights.length
        statusCounts := statusCounts
        delayRate :=
          jsToFixed1 ((statusCounts.delayed : ℚ) / (filteredFlights.length : ℚ) * 100)
        topDestinations := getTopItems filteredFlights Flight.destination
        topAirlines := getTopItems filteredFlights Flight.airline }

/-- Days-from-civil conversion (proleptic Gregorian): the embedding of
parsing a `YYYY-MM-DD` string into a `Date` value, measured in whole days
(the epoch offset is a constant and is irrelevant for comparison and for
adding days, which are the only operations the range loop performs). -/
def daysFromCivil (y m d : ℕ) : ℕ :=
  let yAdj := if m ≤ 2 then y - 1 else y
  let era := yAdj / 400
  let yoe := yAdj % 400
  let mp := if 2 < m then m - 3 else m + 9
  let doy := (153 * mp + 2) / 5 + (d - 1)
  let doe := yoe * 365 + yoe / 4 - yoe / 100 + doy
  era * 146097 + doe

/-- The while loop of the range enumeration (part_002):
`while (current <= endDate && count < 7)` push the current date and step one
day; `fuel = 7 - count` decreases each iteration. -/
def rangeGo (e : ℕ) : ℕ → ℕ → List ℕ
  | _, 0 => []
  | c, fuel + 1 => if c ≤ e then c :: rangeGo e (c + 1) fuel else []

/-- Date enumeration of a range fetch: every calendar day from `s` to `e`
inclusive, truncated to at most 7 dates. -/
def rangeDates (s e : ℕ) : List ℕ :=
  rangeGo e s 7

/-- Range metadata attached to a multi-date fetch. -/
structure RangeMetadata where
  totalDates : ℕ
  datesWithData : ℕ
  missingDates : List ℕ
  deriving DecidableEq, Repr

/-- Metadata construction over the enumerated dates (part_002): walking the
date list, a date with data contributes a flight, a date without data is
pushed onto `missingDates`; `totalDates` is the length of the date list and
`datesWithData` counts the dates that yielded at least one flight. -/
def statsMetadata (dates : List ℕ) (hasData : ℕ → Bool) : RangeMetadata :=
  { totalDates := dates.length
    datesWithData := (dates.filter hasData).length
    missingDates := dates.filter (fun d => !(hasData d)) }

/-- A fetched flight collection: the record sequence plus the out-of-band
`_metadata` attached by a range fetch. -/
structure FlightCollection where
  records : List Flight
  metadata : Option RangeMetadata
  deriving DecidableEq, Repr

/-- The derived state of the `AirportStatistics` component for given props
and filter input: the filtered flights, the snapshot memo over them, and the
metadata handed to `DataFeedback` — which the component reads from the
original `flights._metadata`, not from the filtered array. -/
structure StatsView where
  filteredFlights : List Flight
  stats : Option Snapshot
  feedbackMetadata : Option RangeMetadata
  deriving DecidableEq, Repr

/-- Dataflow of the `AirportStatistics` component body. -/
def airportStatsView (flights : FlightCollection) (filter : String) : StatsView :=
  let filtered := filterFlightsByQuery flights.records filter
  { filteredFlights := filtered
    stats := statsOf filtered
    feedbackMetadata := flights.metadata }

/-- Epoch-style value in milliseconds of a UTC timestamp with the calendar
fields `y-m-d h:mi:s` (constant affine offset, like `daysFromCivil`). -/
def utcMs (y mo d h mi s : ℕ) : ℚ :=
  (((daysFromCivil y mo d) * 86400 + h * 3600 + mi * 60 + s) * 1000 : ℕ)

/-- The delay-heuristic example flight: textual status on time, scheduled
2025-01-01T10:00:00Z, actual 2025-01-01T10:20:00Z. -/
def exampleOnTimeFlight : Flight :=
  { id := "SK321", airline := "SAS", destination := "Oslo", status := "On Time",
    scheduledUtc := some (utcMs 2025 1 1 10 0 0),
    actualUtc := some (utcMs 2025 1 1 10 20 0) }

/-- Filter-example flight to London. -/
def skLondon : Flight :=
  { id := "SK100", destination := "London", airline := "SAS",
    status := "Landat", time := "10:00" }

/-- Filter-example flight to Madrid. -/
def skMadrid : Flight :=
  { id := "SK200", destination := "Madrid", airline := "SAS",
    status := "Försenat", time := "11:00" }

/-- Specification-side match predicate of the query filter: the flight's id,
destination or airline contains the query case-insensitively, or the query is
a case-insensitive substring of a country name in the static mapping and the
destination contains one of that country's aliases. -/
def queryMatches (query : String) (f : Flight) : Bool :=
  strIncl f.id query || strIncl f.destination query || strIncl f.airline query ||
  COUNTRY_MAPPING.any (fun p =>
    strIncl p.1 query && p.2.any (fun al => strIncl f.destination al))

/-- Specification-side delay condition of claim C1: a textual delayed marker,
or both timestamps present with the actual/estimated at least 15 minutes
after the scheduled time. -/
def delayedCond (f : Flight) : Prop :=
  jsIncludes (lowerStr f.status) (lowerStr "delayed") = true ∨
  jsIncludes (lowerStr f.status) (lowerStr "försenat") = true ∨
  ∃ scheduled actual, f.scheduledUtc = some scheduled ∧
    (f.actualUtc).or f.estimatedUtc = some actual ∧
    (actual - scheduled) / (1000 * 60) ≥ 15

/-- Landed-marker text condition. -/
def landedText (f : Flight) : Prop :=
  jsIncludes (lowerStr f.status) (lowerStr "landat") = true

/-- Cancelled-marker text condition. -/
def cancelledText (f : Flight) : Prop :=
  jsIncludes (lowerStr f.status) (lowerStr "cancelled") = true ∨
  jsIncludes (lowerStr f.status) (lowerStr "inställt") = true

/-! ## Helper lemmas about the frequency-count machinery -/

theorem mem_uniqKeys_foldl (l : List String) (acc : List String) (x : String) :
    x ∈ l.foldl (fun acc v => if v ∈ acc then acc else acc ++ [v]) acc ↔
      x ∈ acc ∨ x ∈ l := by
  induction l generalizing acc with
  | nil => simp
  | cons v t ih =>
      simp only [List.foldl_cons, ih, List.mem_cons]
      by_cases hv : v ∈ acc
      · simp only [if_pos hv]
        constructor
        · rintro (h | h)
          · exact Or.inl h
          · exact Or.inr (Or.inr h)
        · rintro (h | h | h)
          · exact Or.inl h
          · exact Or.inl (h ▸ hv)
          · exact Or.inr h
      · simp only [if_neg hv, List.mem_append, List.mem_singleton]
        tauto

theorem mem_uniqKeys (l : List String) (x : String) :
    x ∈ uniqKeys l ↔ x ∈ l := by
  unfold uniqKeys
  rw [mem_uniqKeys_foldl]
  simp

theorem uniqKeys_append_singleton (p : List String) (v : String) :
    uniqKeys (p ++ [v]) =
      if v ∈ p then uniqKeys p else uniqKeys p ++ [v] := by
  have h1 : uniqKeys (p ++ [v]) =
      if v ∈ uniqKeys p then uniqKeys p else uniqKeys p ++ [v] := by
    unfold uniqKeys
    rw [List.foldl_append]
    simp only [List.foldl_cons, List.foldl_nil]
  rw [h1]
  simp only [mem_uniqKeys]

theorem bumpCount_countsSpec (p : List String) (v : String) :
    bumpCount (countsSpec p) v = countsSpec (p ++ [v]) := by
  unfold bumpCount countsSpec
  rw [uniqKeys_append_singleton]
  by_cases hv : v ∈ p
  · have hany : ((uniqKeys p).map (fun k => (k, p.count k))).any
        (fun q => decide (q.1 = v)) = true := by
      simp only [List.any_eq_true, List.mem_map]
      exact ⟨(v, p.count v), ⟨v, (mem_uniqKeys p v).mpr hv, rfl⟩, by simp⟩
    rw [if_pos hv, if_pos hany, List.map_map]
    apply List.map_congr_left
    intro k _
    by_cases hk : k = v
    · subst hk
      simp [List.count_append]
    · simp [hk, List.count_append, List.count_singleton', Ne.symm hk]
  · have hany : ((uniqKeys p).map (fun k => (k, p.count k))).any
        (fun q => decide (q.1 = v)) = false := by
      simp only [List.any_eq_false, List.mem_map]
      rintro q ⟨k, hk, rfl⟩
      simp only [decide_eq_true_eq]
      exact fun h => hv ((mem_uniqKeys p v).mp (h ▸ hk))
    rw [if_neg hv, if_neg (by simp [hany]), List.map_append]
    congr 1
    · apply List.map_congr_left
      intro k hk
      have hkv : k ≠ v := fun h => hv (h ▸ (mem_uniqKeys p k).mp hk)
      simp [List.count_append, List.count_singleton', hkv]
    · have : p.count v = 0 := List.count_eq_zero.mpr hv
      simp [List.count_append, this]

theorem countsFold_eq_countsSpec (l : List String) :
    countsFold l = countsSpec l := by
  have key : ∀ (l p : List String),
      l.foldl bumpCount (countsSpec p) = countsSpec (p ++ l) := by
    intro l
    induction l with
    | nil => intro p; simp
    | cons v t ih =>
        intro p
        rw [List.foldl_cons, bumpCount_countsSpec, ih,
          List.append_assoc]
        rfl
  have h0 : countsSpec [] = ([] : List (String × ℕ)) := by
    simp [countsSpec, uniqKeys]
  calc countsFold l = l.foldl bumpCount (countsSpec []) := by rw [h0]; rfl
    _ = countsSpec ([] ++ l) := key l []
    _ = countsSpec l := by rw [List.nil_append]

theorem mem_countsFold_count {l : List String} {k : String} {c : ℕ}
    (h : (k, c) ∈ countsFold l) : c = l.count k ∧ k ∈ l := by
  rw [countsFold_eq_countsSpec] at h
  unfold countsSpec at h
  rcases List.mem_map.mp h with ⟨j, hj, hje⟩
  have h1 : j = k := congrArg Prod.fst hje
  have h2 : l.count j = c := congrArg Prod.snd hje
  subst h1
  exact ⟨h2.symm, (mem_uniqKeys l j).mp hj⟩

/-! ## Helper lemmas about the stable descending sort -/

theorem mem_insDesc (x a : String × ℕ) (l : List (String × ℕ)) :
    a ∈ insDesc x l ↔ a = x ∨ a ∈ l := by
  induction l with
  | nil => simp [insDesc]
  | cons y ys ih =>
      unfold insDesc
      by_cases h : y.2 < x.2
      · simp [h]
      · simp only [if_neg h, List.mem_cons, ih]
        tauto

theorem pairwise_insDesc (x : String × ℕ) (l : List (String × ℕ))
    (hl : l.Pairwise (fun a b => b.2 ≤ a.2)) :
    (insDesc x l).Pairwise (fun a b => b.2 ≤ a.2) := by
  induction l with
  | nil => simp [insDesc]
  | cons y ys ih =>
      rcases List.pairwise_cons.mp hl with ⟨hy, hys⟩
      unfold insDesc
      by_cases h : y.2 < x.2
      · rw [if_pos h]
        refine List.pairwise_cons.mpr ⟨?_, hl⟩
        intro b hb
        rcases List.mem_cons.mp hb with rfl | hb
        · exact Nat.le_of_lt h
        · exact Nat.le_trans (hy b hb) (Nat.le_of_lt h)
      · rw [if_neg h]
        refine List.pairwise_cons.mpr ⟨?_, ih hys⟩
        intro b hb
        rcases (mem_insDesc x b ys).mp hb with rfl | hb
        · exact Nat.le_of_not_lt h
        · exact hy b hb

theorem pairwise_sortByCountDesc (l : List (String × ℕ)) :
    (sortByCountDesc l).Pairwise (fun a b => b.2 ≤ a.2) := by
  have key : ∀ (l acc : List (String × ℕ)),
      acc.Pairwise (fun a b => b.2 ≤ a.2) →
      (l.foldl (fun acc x => insDesc x acc) acc).Pairwise (fun a b => b.2 ≤ a.2) := by
    intro l
    induction l with
    | nil => intro acc h; exact h
    | cons x t ih => intro acc h; exact ih _ (pairwise_insDesc x acc h)
  exact key l [] List.Pairwise.nil

theorem filter_insDesc (x : String × ℕ) (l : List (String × ℕ)) (c : ℕ)
    (hl : l.Pairwise (fun a b => b.2 ≤ a.2)) :
    (insDesc x l).filter (fun p => p.2 = c) =
      l.filter (fun p => p.2 = c) ++ ([x].filter (fun p => p.2 = c)) := by
  induction l with
  | nil => simp [insDesc]
  | cons y ys ih =>
      rcases List.pairwise_cons.mp hl with ⟨hy, hys⟩
      unfold insDesc
      by_cases h : y.2 < x.2
      · rw [if_pos h]
        by_cases hxc : x.2 = c
        · have hyc : ¬ (y.2 = c) := by omega
          have hysc : (y :: ys).filter (fun p => p.2 = c) = [] := by
            rw [List.filter_eq_nil_iff]
            intro b hb
            rcases List.mem_cons.mp hb with rfl | hb
            · simp [hyc]
            · have : b.2 ≤ y.2 := hy b hb
              have : ¬ (b.2 = c) := by omega
              simp [this]
          rw [List.filter_cons]
          simp only [decide_eq_true_eq]
          rw [if_pos hxc, hysc]
          simp [hxc]
        · rw [List.filter_cons]
          simp only [decide_eq_true_eq]
          rw [if_neg hxc]
          simp [hxc]
      · rw [if_neg h, List.filter_cons, List.filter_cons, ih hys]
        by_cases hyc : y.2 = c
        · simp [hyc]
        · simp [hyc]

theorem filter_sortByCountDesc (l : List (String × ℕ)) (c : ℕ) :
    (sortByCountDesc l).filter (fun p => p.2 = c) = l.filter (fun p => p.2 = c) := by
  have key : ∀ (l acc : List (String × ℕ)),
      acc.Pairwise (fun a b => b.2 ≤ a.2) →
      (l.foldl (fun acc x => insDesc x acc) acc).filter (fun p => p.2 = c) =
        acc.filter (fun p => p.2 = c) ++ l.filter (fun p => p.2 = c) := by
    intro l
    induction l with
    | nil => intro acc _; simp
    | cons x t ih =>
        intro acc h
        rw [List.foldl_cons, ih _ (pairwise_insDesc x acc h),
          filter_insDesc x acc c h, List.filter_cons, List.append_assoc]
        by_cases hxc : x.2 = c
        · simp [hxc]
        · simp [hxc]
  have := key l [] List.Pairwise.nil
  simpa [sortByCountDesc] using this

/-! ## Helper lemmas about status counting, the range loop and aggregation -/

theorem statusCounts_sum (flights : List Flight) :
    (calculateStatusCounts flights).landed + (calculateStatusCounts flights).delayed +
      (calculateStatusCounts flights).cancelled + (calculateStatusCounts flights).onTime =
      flights.length := by
  have key : ∀ (l : List Flight) (acc : StatusCounts),
      (l.foldl bumpStatus acc).landed + (l.foldl bumpStatus acc).delayed +
        (l.foldl bumpStatus acc).cancelled + (l.foldl bumpStatus acc).onTime =
        acc.landed + acc.delayed + acc.cancelled + acc.onTime + l.length := by
    intro l
    induction l with
    | nil => intro acc; simp
    | cons f t ih =>
        intro acc
        rw [List.foldl_cons, ih]
        unfold bumpStatus
        rcases classifyFlight f with _ | _ | _ | _ <;> simp <;> omega
  have := key flights ⟨0, 0, 0, 0⟩
  simpa [calculateStatusCounts] using this

theorem rangeGo_of_gt (e : ℕ) (c : ℕ) (fuel : ℕ) (h : e < c) :
    rangeGo e c fuel = [] := by
  cases fuel with
  | zero => rfl
  | succ n => unfold rangeGo; rw [if_neg (by omega)]

theorem rangeGo_length (e : ℕ) :
    ∀ (fuel c : ℕ), c ≤ e → (rangeGo e c fuel).length = min (e - c + 1) fuel := by
  intro fuel
  induction fuel with
  | zero => intro c _; simp [rangeGo]
  | succ n ih =>
      intro c hc
      unfold rangeGo
      rw [if_pos hc, List.length_cons]
      by_cases h : c + 1 ≤ e
      · rw [ih (c + 1) h]
        omega
      · have hce : c = e := by omega
        rw [rangeGo_of_gt e (c + 1) n (by omega)]
        simp only [List.length_nil]
        omega

theorem destCounts_eq_countsFold (flights : List Flight) (airportIata : String) :
    destCounts flights airportIata = countsFold (relevantKeys flights airportIata) := by
  have key : ∀ (l : List Flight) (acc : List (String × ℕ)),
      (l.foldl (fun acc f =>
        match farEnd f with
        | some d => if d ≠ airportIata ∧ coordsHas d then bumpCount acc d else acc
        | none => acc) acc) =
      ((l.filterMap (fun f =>
        match farEnd f with
        | some d => if d ≠ airportIata ∧ coordsHas d then some d else none
        | none => none)).foldl bumpCount acc) := by
    intro l
    induction l with
    | nil => intro acc; rfl
    | cons f t ih =>
        intro acc
        rw [List.foldl_cons, List.filterMap_cons]
        rcases hfe : farEnd f with _ | d
        · simpa using ih acc
        · by_cases hguard : d ≠ airportIata ∧ coordsHas d
          · simp only [if_pos hguard]
            rw [List.foldl_cons]
            exact ih (bumpCount acc d)
          · simp only [if_neg hguard]
            exact ih acc
  exact key flights []

theorem one_le_maxCountOr1 (counts : List (String × ℕ)) : 1 ≤ maxCountOr1 counts := by
  unfold maxCountOr1
  induction counts with
  | nil => simp
  | cons p t ih =>
      rw [List.map_cons, List.foldr_cons]
      omega

theorem maxCountOr1_eq_max (counts : List (String × ℕ)) :
    maxCountOr1 counts = max 1 ((counts.map (fun p => p.2)).foldr max 0) := by
  unfold maxCountOr1
  induction counts with
  | nil => simp
  | cons p t ih =>
      simp only [List.map_cons, List.foldr_cons]
      rw [ih]
      omega

theorem mem_relevantKeys {flights : List Flight} {a d : String}
    (h : d ∈ relevantKeys flights a) : d ≠ a ∧ coordsHas d = true := by
  unfold relevantKeys at h
  rcases List.mem_filterMap.mp h with ⟨f, _, hf⟩
  rcases hfe : farEnd f with _ | d'
  · rw [hfe] at hf
    cases hf
  · rw [hfe] at hf
    dsimp only at hf
    by_cases hg : d' ≠ a ∧ coordsHas d'
    · rw [if_pos hg] at hf
      cases hf
      exact ⟨hg.1, hg.2⟩
    · rw [if_neg hg] at hf
      cases hf

theorem filterPred_eq_queryMatches (f : Flight) (q : String) :
    (jsIncludes (lowerStr f.id) (lowerStr q) ||
     jsIncludes (lowerStr f.destination) (lowerStr q) ||
     jsIncludes (lowerStr f.airline) (lowerStr q) ||
     ((COUNTRY_MAPPING.filter (fun p => jsIncludes (lowerStr p.1) (lowerStr q))).flatMap
        (fun p => p.2.map lowerStr)).any
       (fun k => jsIncludes (lowerStr f.destination) k)) = queryMatches q f := by
  unfold queryMatches strIncl
  congr 1
  rw [Bool.eq_iff_iff]
  simp only [List.any_eq_true, List.mem_flatMap, List.mem_filter, List.mem_map,
    Bool.and_eq_true]
  constructor
  · rintro ⟨k, ⟨p, ⟨hp, hpq⟩, al, hal, rfl⟩, hdest⟩
    exact ⟨p, hp, hpq, al, hal, hdest⟩
  · rintro ⟨p, hp, hpq, al, hal, hdest⟩
    exact ⟨lowerStr al, ⟨p, ⟨hp, hpq⟩, al, hal, rfl⟩, hdest⟩

theorem mem_filterFlightsByQuery (flights : List Flight) (q : String)
    (hq : q ≠ "") (f : Flight) :
    f ∈ filterFlightsByQuery flights q ↔ f ∈ flights ∧ queryMatches q f = true := by
  unfold filterFlightsByQuery
  rw [if_neg hq, List.mem_filter]
  constructor
  · rintro ⟨hmem, hpred⟩
    exact ⟨hmem, by rw [← filterPred_eq_queryMatches f q]; exact hpred⟩
  · rintro ⟨hmem, hpred⟩
    exact ⟨hmem, by rw [filterPred_eq_queryMatches f q]; exact hpred⟩

/-! ## Claim theorems -/

/-- C4: for every flight list and non-empty query, the filter keeps exactly
the flights whose id, destination or airline case-insensitively contains the
query, plus any flight whose destination contains an alias of a country whose
name case-insensitively contains the query; filtering the London/Madrid
example with query "Spanien" yields exactly the Madrid flight. -/
theorem c4_query_filter (flights : List Flight) (query : String)
    (hq : query ≠ "") :
    (∀ f, f ∈ filterFlightsByQuery flights query ↔
        f ∈ flights ∧ queryMatches query f = true) ∧
    filterFlightsByQuery [skLondon, skMadrid] "Spanien" = [skMadrid] := by
  refine ⟨fun f => mem_filterFlightsByQuery flights query hq f, ?_⟩
  decide

/-- Witness for C4 at a concrete input. -/
theorem c4_query_filter_witness :
    filterFlightsByQuery [skLondon, skMadrid] "Spanien" = [skMadrid] :=
  (c4_query_filter [] "Spanien" (by decide)).2

/-- C7: filtering is idempotent — filtering an already-filtered list with the
same query returns the same list. -/
theorem c7_filter_idempotent (flights : List Flight) (query : String) :
    filterFlightsByQuery (filterFlightsByQuery flights query) query =
      filterFlightsByQuery flights query := by
  by_cases hq : query = ""
  · simp [filterFlightsByQuery, hq]
  · simp only [filterFlightsByQuery, if_neg hq]
    rw [List.filter_filter]
    apply List.filter_congr
    intro x _
    rw [Bool.and_self]

theorem isDelayedFlight_iff (f : Flight) :
    isDelayedFlight f = true ↔ delayedCond f := by
  unfold isDelayedFlight delayedCond
  by_cases h1 : jsIncludes (lowerStr f.status) (lowerStr "delayed") = true
  · rw [if_pos (by simp [h1])]
    simp [h1]
  · by_cases h2 : jsIncludes (lowerStr f.status) (lowerStr "försenat") = true
    · rw [if_pos (by simp [h2])]
      simp [h2]
    · rw [if_neg (by simp [h1, h2])]
      rcases hs : f.scheduledUtc with _ | scheduled
      · dsimp only
        simp [h1, h2]
      · rcases ha : (f.actualUtc).or f.estimatedUtc with _ | actual
        · dsimp only
          simp [h1, h2]
        · dsimp only
          simp only [decide_eq_true_eq]
          constructor
          · intro h
            exact Or.inr (Or.inr ⟨scheduled, actual, rfl, rfl, h⟩)
          · rintro (h | h | ⟨s', a', hs', ha', h⟩)
            · exact absurd h h1
            · exact absurd h h2
            · injection hs' with hseq
              injection ha' with haeq
              rw [hseq, haeq]
              exact h

theorem cancelledText_iff (f : Flight) :
    cancelledText f ↔
      (jsIncludes (lowerStr f.status) (lowerStr "cancelled") ||
        jsIncludes (lowerStr f.status) (lowerStr "inställt")) = true := by
  simp [cancelledText]

theorem exampleOnTime_isDelayed : isDelayedFlight exampleOnTimeFlight = true := by
  unfold isDelayedFlight
  rw [if_neg (by decide)]
  show (match exampleOnTimeFlight.scheduledUtc,
      (exampleOnTimeFlight.actualUtc).or exampleOnTimeFlight.estimatedUtc with
    | some scheduled, some actual => decide ((actual - scheduled) / (1000 * 60) ≥ 15)
    | _, _ => false) = true
  have hs : exampleOnTimeFlight.scheduledUtc = some (utcMs 2025 1 1 10 0 0) := rfl
  have ha : (exampleOnTimeFlight.actualUtc).or exampleOnTimeFlight.estimatedUtc =
      some (utcMs 2025 1 1 10 20 0) := rfl
  rw [hs, ha]
  dsimp only
  rw [decide_eq_true_eq]
  unfold utcMs daysFromCivil
  norm_num

theorem exampleOnTime_classify :
    classifyFlight exampleOnTimeFlight = StatusClass.delayed := by
  unfold classifyFlight
  rw [if_neg (by decide), if_pos exampleOnTime_isDelayed]

/-- C1: status classification assigns exactly one class in priority order:
landed marker first; then the delay decision (textual delayed marker, or
scheduled plus actual-or-estimated UTC timestamps at least 15 minutes apart
— applied even when the text says on time); then cancelled markers; otherwise
on time.  The on-time example with a 20-minute timestamp gap classifies as
delayed. -/
theorem c1_status_classification (f : Flight) :
    ((classifyFlight f = StatusClass.landed) ↔ landedText f) ∧
    ((classifyFlight f = StatusClass.delayed) ↔ ¬ landedText f ∧ delayedCond f) ∧
    ((classifyFlight f = StatusClass.cancelled) ↔
      ¬ landedText f ∧ ¬ delayedCond f ∧ cancelledText f) ∧
    ((classifyFlight f = StatusClass.onTime) ↔
      ¬ landedText f ∧ ¬ delayedCond f ∧ ¬ cancelledText f) ∧
    classifyFlight exampleOnTimeFlight = StatusClass.delayed := by
  refine ⟨?_, ?_, ?_, ?_, exampleOnTime_classify⟩ <;>
    simp only [landedText, cancelledText_iff, ← isDelayedFlight_iff] <;>
    by_cases hl : jsIncludes (lowerStr f.status) (lowerStr "landat") = true <;>
    by_cases hd : isDelayedFlight f = true <;>
    by_cases hc : (jsIncludes (lowerStr f.status) (lowerStr "cancelled") ||
        jsIncludes (lowerStr f.status) (lowerStr "inställt")) = true <;>
    simp [classifyFlight, hl, hd, hc]

/-- C6: for every non-empty flight list the four status counters sum to the
total, and the snapshot built from the list carries those counters with
`total` equal to the list length. -/
theorem c6_status_counts_sum (flights : List Flight) (h : flights ≠ []) :
    (calculateStatusCounts flights).landed + (calculateStatusCounts flights).delayed +
      (calculateStatusCounts flights).cancelled + (calculateStatusCounts flights).onTime =
      flights.length ∧
    (∀ s, statsOf flights = some s →
      s.statusCounts.landed + s.statusCounts.delayed + s.statusCounts.cancelled +
        s.statusCounts.onTime = s.total) := by
  refine ⟨statusCounts_sum flights, ?_⟩
  intro s hs
  unfold statsOf at hs
  rw [if_neg (by simpa using h)] at hs
  cases hs
  exact statusCounts_sum flights

/-- Witness for C6 at a concrete input. -/
theorem c6_status_counts_sum_witness :
    (calculateStatusCounts [skLondon, skMadrid]).landed +
      (calculateStatusCounts [skLondon, skMadrid]).delayed +
      (calculateStatusCounts [skLondon, skMadrid]).cancelled +
      (calculateStatusCounts [skLondon, skMadrid]).onTime = 2 :=
  (c6_status_counts_sum [skLondon, skMadrid] (by decide)).1

/-- C8: the top-N computation is the 5-truncation of the stable descending
sort of the first-encounter frequency counts: the counts refine the
specification-side frequency list, the output is sorted descending by count,
ties keep first-encountered order (per-count-value filters are preserved by
the sort), at most 5 entries survive, and the identity-grouping example
yields [(A,3), (B,2), (C,1)]. -/
theorem c8_top_items (α : Type) (items : List α) (key : α → String) :
    getTopItems items key = (sortByCountDesc (countsFold (items.map key))).take 5 ∧
    countsFold (items.map key) = countsSpec (items.map key) ∧
    (getTopItems items key).Pairwise (fun a b => b.2 ≤ a.2) ∧
    (∀ c, (sortByCountDesc (countsFold (items.map key))).filter (fun p => p.2 = c) =
      (countsFold (items.map key)).filter (fun p => p.2 = c)) ∧
    (getTopItems items key).length ≤ 5 ∧
    getTopItems ["A", "A", "B", "A", "B", "C"] id = [("A", 3), ("B", 2), ("C", 1)] := by
  refine ⟨rfl, countsFold_eq_countsSpec _, ?_, ?_, ?_, by decide⟩
  · exact (pairwise_sortByCountDesc (countsFold (items.map key))).sublist
      (List.take_sublist 5 _)
  · intro c
    exact filter_sortByCountDesc (countsFold (items.map key)) c
  · exact List.length_take_le 5 _

/-- C3: the route aggregation branches on `type` to pick the far-end code,
skips self-loops and codes without coordinates, counts flights per retained
far-end code, and divides by `max(1, max(counts))`, a denominator that is at
least 1 even for an empty aggregate set. -/
theorem c3_route_aggregation (flights : List Flight) (airportIata : String) :
    (∀ f, farEnd f = (match f.type with
        | FlightType.Arrival => f.originIata
        | FlightType.Departure => f.destinationIata)) ∧
    destCounts flights airportIata = countsFold (relevantKeys flights airportIata) ∧
    (∀ p, p ∈ destCounts flights airportIata →
      p.1 ≠ airportIata ∧ coordsHas p.1 = true ∧
      p.2 = (relevantKeys flights airportIata).count p.1) ∧
    maxCountOr1 (destCounts flights airportIata) =
      max 1 (((destCounts flights airportIata).map (fun p => p.2)).foldr max 0) ∧
    1 ≤ maxCountOr1 (destCounts flights airportIata) ∧
    (∀ d, d ∈ destinationsFor flights airportIata →
      d.popularity =
        (d.count : ℚ) / (maxCountOr1 (destCounts flights airportIata) : ℚ)) := by
  refine ⟨fun f => rfl, destCounts_eq_countsFold flights airportIata, ?_,
    maxCountOr1_eq_max _, one_le_maxCountOr1 _, ?_⟩
  · rintro ⟨k, c⟩ hp
    rw [destCounts_eq_countsFold] at hp
    rcases mem_countsFold_count hp with ⟨hc, hk⟩
    rcases mem_relevantKeys hk with ⟨hne, hcoords⟩
    exact ⟨hne, hcoords, hc⟩
  · intro d hd
    unfold destinationsFor at hd
    rcases List.mem_map.mp hd with ⟨p, _, hpe⟩
    rw [← hpe]

/-- Witness for C3 at a concrete input. -/
theorem c3_route_aggregation_witness :
    1 ≤ maxCountOr1 (destCounts [] "ARN") :=
  (c3_route_aggregation [] "ARN").2.2.2.2.1

/-- C2 counterexample: a popularity of exactly `0.3 = count/max` (for example
`count = 3`, `max = 10`) falls in the rare tier, not the medium tier — the
medium bound `popularity > 0.3` is strict. -/
theorem c2_boundary_counterexample :
    (3 : ℚ) / 10 = 3 / 10 ∧ tierOf ((3 : ℚ) / 10) = Tier.rare ∧
      Tier.rare ≠ Tier.medium := by
  refine ⟨rfl, ?_, by decide⟩
  unfold tierOf
  rw [if_neg (by norm_num), if_neg (by norm_num)]

/-- C2 amended: a destination whose count equals the maximum count has
popularity exactly 1 and tier popular; the tier rule is `popularity > 0.7` ⇒
popular, `0.3 < popularity ≤ 0.7` ⇒ medium, otherwise rare; in particular a
popularity of exactly 0.3 gets the rare tier. -/
theorem c2_popularity_tiers :
    (∀ (flights : List Flight) (a : String) (d : DestAgg),
      d ∈ destinationsFor flights a →
      d.count = maxCountOr1 (destCounts flights a) →
      d.popularity = 1 ∧ tierOf d.popularity = Tier.popular) ∧
    (∀ p : ℚ, p > 7/10 → tierOf p = Tier.popular) ∧
    (∀ p : ℚ, 3/10 < p ∧ p ≤ 7/10 → tierOf p = Tier.medium) ∧
    (∀ p : ℚ, p ≤ 3/10 → tierOf p = Tier.rare) ∧
    tierOf ((3 : ℚ) / 10) = Tier.rare := by
  have hpop : ∀ p : ℚ, p > 7/10 → tierOf p = Tier.popular := by
    intro p hp
    unfold tierOf
    rw [if_pos hp]
  have hmed : ∀ p : ℚ, 3/10 < p ∧ p ≤ 7/10 → tierOf p = Tier.medium := by
    rintro p ⟨h1, h2⟩
    unfold tierOf
    rw [if_neg (by linarith), if_pos h1]
  have hrare : ∀ p : ℚ, p ≤ 3/10 → tierOf p = Tier.rare := by
    intro p hp
    unfold tierOf
    rw [if_neg (by linarith), if_neg (by linarith)]
  refine ⟨?_, hpop, hmed, hrare, hrare _ (by norm_num)⟩
  intro flights a d hd hc
  have hpos : (0 : ℚ) < (maxCountOr1 (destCounts flights a) : ℚ) := by
    have := one_le_maxCountOr1 (destCounts flights a)
    exact_mod_cast Nat.lt_of_lt_of_le Nat.zero_lt_one this
  have hpop1 : d.popularity = 1 := by
    unfold destinationsFor at hd
    rcases List.mem_map.mp hd with ⟨p, _, hpe⟩
    have hcnt : d.count = p.2 := by rw [← hpe]
    have : d.popularity = (p.2 : ℚ) / (maxCountOr1 (destCounts flights a) : ℚ) := by
      rw [← hpe]
    rw [this, ← hcnt, hc, div_self (ne_of_gt hpos)]
  refine ⟨hpop1, ?_⟩
  rw [hpop1]
  exact hpop 1 (by norm_num)

/-- Witness for C2 (amended) at a concrete input. -/
theorem c2_popularity_tiers_witness : tierOf (1 : ℚ) = Tier.popular :=
  c2_popularity_tiers.2.1 1 (by norm_num)

/-- C5: a range fetch enumerates each calendar date from start to end
inclusive, truncated to at most 7 dates, so the number of enumerated dates is
`min(requestedDays, 7)`; the metadata's `totalDates` is the length of the
date list and `missingDates` are exactly the dates without data; the
2026-01-13..2026-01-20 range (8 days) is truncated to the 7 consecutive dates
starting 2026-01-13. -/
theorem c5_range_enumeration (s e : ℕ) (h : s ≤ e) :
    (rangeDates s e).length = min (e - s + 1) 7 ∧
    (∀ hasData : ℕ → Bool,
      (statsMetadata (rangeDates s e) hasData).totalDates = (rangeDates s e).length ∧
      (statsMetadata (rangeDates s e) hasData).missingDates =
        (rangeDates s e).filter (fun d => hasData d = false)) ∧
    rangeDates (daysFromCivil 2026 1 13) (daysFromCivil 2026 1 20) =
      [daysFromCivil 2026 1 13, daysFromCivil 2026 1 14, daysFromCivil 2026 1 15,
       daysFromCivil 2026 1 16, daysFromCivil 2026 1 17, daysFromCivil 2026 1 18,
       daysFromCivil 2026 1 19] := by
  refine ⟨rangeGo_length e 7 s h, ?_, by decide⟩
  intro hasData
  refine ⟨rfl, ?_⟩
  unfold statsMetadata
  apply List.filter_congr
  intro d _
  cases hasData d <;> simp

/-- Witness for C5 at a concrete input. -/
theorem c5_range_enumeration_witness :
    (rangeDates 10 20).length = min (20 - 10 + 1) 7 :=
  (c5_range_enumeration 10 20 (by decide)).1

/-- C9: the range metadata attached to the fetched collection survives
filtering — the filtered flights are a (new) subsequence of the records, and
the metadata handed to the presentation layer (`DataFeedback`) is the fetched
collection's metadata, unchanged, for every filter query. -/
theorem c9_metadata_survives_filter (c : FlightCollection) (q : String) :
    (airportStatsView c q).feedbackMetadata = c.metadata ∧
    (airportStatsView c q).filteredFlights = filterFlightsByQuery c.records q ∧
    (airportStatsView c q).filteredFlights.Sublist c.records := by
  refine ⟨rfl, rfl, ?_⟩
  show (filterFlightsByQuery c.records q).Sublist c.records
  unfold filterFlightsByQuery
  by_cases hq : q = ""
  · rw [if_pos hq]
  · rw [if_neg hq]
    exact List.filter_sublist c.records

/-- C10: the statistics memo yields no snapshot (`null`) for an empty
filtered set, and for a non-empty filtered set the snapshot's delay rate is
`delayed / total * 100` rounded to one decimal place, with `total` the
filtered length. -/
theorem c10_stats_delay_rate (c : FlightCollection) (q : String)
    (fl : List Flight) :
    statsOf [] = none ∧
    (filterFlightsByQuery c.records q = [] → (airportStatsView c q).stats = none) ∧
    (fl ≠ [] → ∃ s, statsOf fl = some s ∧ s.total = fl.length ∧
      s.delayRate = jsToFixed1
        (((calculateStatusCounts fl).delayed : ℚ) / (fl.length : ℚ) * 100)) := by
  refine ⟨rfl, ?_, ?_⟩
  · intro hempty
    show statsOf (filterFlightsByQuery c.records q) = none
    rw [hempty]
    rfl
  · intro hne
    unfold statsOf
    rw [if_neg (by simpa using hne)]
    exact ⟨_, rfl, rfl, rfl⟩

/-- Witness for C10 at a concrete input. -/
theorem c10_stats_delay_rate_witness : statsOf [] = none :=
  (c10_stats_delay_rate ⟨[], none⟩ "" []).1

/-- Witness for C1 at a concrete input. -/
theorem c1_status_classification_witness :
    classifyFlight exampleOnTimeFlight = StatusClass.delayed :=
  (c1_status_classification exampleOnTimeFlight).2.2.2.2

/-- Witness for C7 at a concrete input. -/
theorem c7_filter_idempotent_witness :
    filterFlightsByQuery (filterFlightsByQuery [skLondon, skMadrid] "Spanien")
        "Spanien" =
      filterFlightsByQuery [skLondon, skMadrid] "Spanien" :=
  c7_filter_idempotent [skLondon, skMadrid] "Spanien"

/-- Witness for C8 at a concrete input. -/
theorem c8_top_items_witness :
    getTopItems ["A", "A", "B", "A", "B", "C"] id = [("A", 3), ("B", 2), ("C", 1)] :=
  (c8_top_items String ["A", "A", "B", "A", "B", "C"] id).2.2.2.2.2

/-- Witness for C9 at a concrete input. -/
theorem c9_metadata_survives_filter_witness :
    (airportStatsView ⟨[skLondon, skMadrid], some ⟨7, 1, [5]⟩⟩ "Spanien").feedbackMetadata =
      some ⟨7, 1, [5]⟩ :=
  (c9_metadata_survives_filter ⟨[skLondon, skMadrid], some ⟨7, 1, [5]⟩⟩ "Spanien").1
